import Mathlib

/-
  Verification of the Indian_Cotton fabric storefront backend.

  Shallow embedding of the storage layer and the order-creation route:
  - MemStorage (src/server/db.ts): JavaScript Map based in-memory storage.
    Maps are modelled as lists of records carrying their own key, in
    insertion order; Map.set on an existing key replaces the entry in
    place, Map.set on a fresh key appends.
  - PgStorage (src/server/pgStorage.ts): SQL statements are modelled by
    their relational semantics on lists of rows (INSERT appends a row
    with the next serial id, UPDATE ... WHERE maps over matching rows,
    DELETE ... WHERE filters them out).
  - POST /api/orders (src/server/routes.ts): the handler is modelled as
    a function from the session, the parsed request body and the
    database state to a response and a new state.

  JavaScript numbers are modelled as Int (all arithmetic in the claims
  is exact integer arithmetic), JavaScript truthiness of strings and
  numbers is modelled explicitly where the source relies on it.
-/

/-- Product row (products table, src/shared/schema.ts and the schema
section of src/server/db.ts). Price is the integer minor currency
unit. -/
structure Product where
  id : Nat
  name : String
  description : String
  price : Int
  imageUrl : String
  mediaFiles : List String
  category : String
  stock : Int
  isFeatured : Bool
  isActive : Bool
  sku : String
deriving Repr, DecidableEq

/-- Insert payload for a product (insertProductSchema). Columns with a
schema default are optional in the payload; the storage layer applies
the defaults (stock 0, isFeatured false, isActive true, mediaFiles
empty). -/
structure InsertProduct where
  name : String
  description : String
  price : Int
  imageUrl : String
  mediaFiles : Option (List String)
  category : String
  stock : Option Int
  isFeatured : Option Bool
  isActive : Option Bool
  sku : String
deriving Repr, DecidableEq

/-- Category row (categories table): unique name and the denormalized
product_count column (INTEGER DEFAULT 0; never NULL in any state the
code itself creates, so it is modelled as Int and COALESCE with 0 is
the identity). -/
structure Category where
  id : Nat
  name : String
  description : Option String
  productCount : Int
deriving Repr, DecidableEq

/-- Cart item row (cart_items table). -/
structure CartItem where
  id : Nat
  cartId : String
  productId : Nat
  quantity : Int
deriving Repr, DecidableEq

/-- Insert payload for a cart item (insertCartItemSchema). -/
structure InsertCartItem where
  cartId : String
  productId : Nat
  quantity : Int
deriving Repr, DecidableEq

/-- Cart item joined with its product, as returned by getCartItems. -/
structure CartItemWithProduct where
  id : Nat
  cartId : String
  productId : Nat
  quantity : Int
  product : Product
deriving Repr, DecidableEq

/-- Order row (orders table in the schema section of src/server/db.ts). -/
structure Order where
  id : Nat
  userId : Nat
  totalAmount : Int
  status : String
  paymentMethod : Option String
  paymentStatus : String
  shippingAddress : Option String
  shippingCity : Option String
  shippingState : Option String
  shippingZipCode : Option String
  shippingCountry : String
  trackingNumber : Option String
  notes : Option String
deriving Repr, DecidableEq

/-- Insert payload for an order (insertOrderSchema); nullable columns
absent from the payload are none. -/
structure InsertOrder where
  userId : Nat
  totalAmount : Int
  status : Option String
  paymentMethod : Option String
  paymentStatus : Option String
  shippingAddress : Option String
  shippingCity : Option String
  shippingState : Option String
  shippingZipCode : Option String
  shippingCountry : Option String
  trackingNumber : Option String
  notes : Option String
deriving Repr, DecidableEq

/-- Order item row (order_items table); price is the unit price copied
from the product at order time. -/
structure OrderItem where
  id : Nat
  orderId : Nat
  productId : Nat
  quantity : Int
  price : Int
deriving Repr, DecidableEq

/-- Insert payload for an order item (insertOrderItemSchema). -/
structure InsertOrderItem where
  orderId : Nat
  productId : Nat
  quantity : Int
  price : Int
deriving Repr, DecidableEq

/-- Patch for updateProduct (Partial of InsertProduct after
insertProductSchema.partial().parse: absent fields are omitted). -/
structure ProductPatch where
  name : Option String
  description : Option String
  price : Option Int
  imageUrl : Option String
  mediaFiles : Option (List String)
  category : Option String
  stock : Option Int
  isFeatured : Option Bool
  isActive : Option Bool
  sku : Option String
deriving Repr, DecidableEq

/-- JavaScript or-default on an optional string: undefined and the
empty string are falsy, so both fall through to the default. -/
def jsOrStr (o : Option String) (d : String) : String :=
  match o with
  | none => d
  | some s => if s.isEmpty then d else s

/-- JavaScript x or null on an optional string: empty string collapses
to null. -/
def jsOrNull (o : Option String) : Option String :=
  match o with
  | none => none
  | some s => if s.isEmpty then none else some s

/-- JavaScript truthiness of an optional string. -/
def jsTruthyStr (o : Option String) : Bool :=
  match o with
  | none => false
  | some s => !s.isEmpty

/-- Map.get on a list model of a JavaScript Map keyed by key. -/
def jsMapGet {α : Type} (key : α → Nat) (l : List α) (k : Nat) : Option α :=
  l.find? (fun x => key x == k)

/-- Map.set on a list model of a JavaScript Map: replace the entry with
the key if present (a real Map holds at most one), otherwise append. -/
def jsMapSet {α : Type} (key : α → Nat) (l : List α) (k : Nat) (v : α) : List α :=
  if l.any (fun x => key x == k) then l.map (fun x => if key x == k then v else x)
  else l ++ [v]

/-- Map.delete on a list model of a JavaScript Map. -/
def jsMapDelete {α : Type} (key : α → Nat) (l : List α) (k : Nat) : List α :=
  l.filter (fun x => !(key x == k))

/-- Merge a patch into a product: the JavaScript spread of the parsed
partial payload over the existing row, also the effect of the dynamic
UPDATE statement in PgStorage.updateProduct. -/
def applyPatch (p : Product) (u : ProductPatch) : Product :=
  { p with
    name := u.name.getD p.name
    description := u.description.getD p.description
    price := u.price.getD p.price
    imageUrl := u.imageUrl.getD p.imageUrl
    mediaFiles := u.mediaFiles.getD p.mediaFiles
    category := u.category.getD p.category
    stock := u.stock.getD p.stock
    isFeatured := u.isFeatured.getD p.isFeatured
    isActive := u.isActive.getD p.isActive
    sku := u.sku.getD p.sku }

/-- True when no field of the patch is set (updates.length === 0 in
PgStorage.updateProduct). -/
def ProductPatch.isEmptyPatch (u : ProductPatch) : Bool :=
  u.name.isNone && u.description.isNone && u.price.isNone && u.imageUrl.isNone &&
  u.mediaFiles.isNone && u.category.isNone && u.stock.isNone && u.isFeatured.isNone &&
  u.isActive.isNone && u.sku.isNone

/-- First category row with the given name, in iteration order
(Array.from(map.values()).find in MemStorage, first matching row in
PgStorage). -/
def findCategoryByName (cats : List Category) (nm : String) : Option Category :=
  cats.find? (fun c => c.name == nm)

/-- The product_count reported for a category name: the count stored in
the first category row carrying that name. -/
def reportedCount (cats : List Category) (nm : String) : Option Int :=
  (findCategoryByName cats nm).map (fun c => c.productCount)

/-- State of MemStorage (src/server/db.ts): the four Maps and the id
counters that matter for the claims. -/
structure MemState where
  products : List Product
  categories : List Category
  cartItems : List CartItem
  currentProductId : Nat
  currentCategoryId : Nat
  currentCartItemId : Nat
deriving Repr, DecidableEq

namespace MemStorage

/-- MemStorage.createProduct (src/server/db.ts): assign the next id,
store the product, and increment the matching category count (found by
name; no clamp on increment). -/
def createProduct (p : InsertProduct) (st : MemState) : Product × MemState :=
  let id := st.currentProductId
  let newProduct : Product :=
    { id := id
      name := p.name
      description := p.description
      price := p.price
      imageUrl := p.imageUrl
      mediaFiles := p.mediaFiles.getD []
      category := p.category
      stock := p.stock.getD 0
      isFeatured := p.isFeatured.getD false
      isActive := p.isActive.getD true
      sku := p.sku }
  let products := jsMapSet (fun q => q.id) st.products id newProduct
  let cats :=
    match findCategoryByName st.categories p.category with
    | some cat =>
        jsMapSet (fun c => c.id) st.categories cat.id
          { cat with productCount := cat.productCount + 1 }
    | none => st.categories
  (newProduct,
    { st with products := products, categories := cats, currentProductId := id + 1 })

/-- MemStorage.updateProduct (src/server/db.ts): when the patch carries
a truthy category different from the existing one, decrement the old
category count clamped at zero (Math.max(0, n - 1)) and increment the
new one; then merge the patch into the product. The second category
lookup runs on the already-updated map, as in the source. -/
def updateProduct (id : Nat) (patch : ProductPatch) (st : MemState) :
    Option Product × MemState :=
  match jsMapGet (fun p => p.id) st.products id with
  | none => (none, st)
  | some existing =>
    let cats :=
      if jsTruthyStr patch.category && !(patch.category.getD "" == existing.category) then
        let cats1 :=
          match findCategoryByName st.categories existing.category with
          | some oldCat =>
              jsMapSet (fun c => c.id) st.categories oldCat.id
                { oldCat with productCount := max 0 (oldCat.productCount - 1) }
          | none => st.categories
        match findCategoryByName cats1 (patch.category.getD "") with
        | some newCat =>
            jsMapSet (fun c => c.id) cats1 newCat.id
              { newCat with productCount := newCat.productCount + 1 }
        | none => cats1
      else st.categories
    let updated := applyPatch existing patch
    (some updated,
      { st with categories := cats,
                products := jsMapSet (fun p => p.id) st.products id updated })

/-- MemStorage.deleteProduct (src/server/db.ts): decrement the category
count clamped at zero, then delete the product from the map. -/
def deleteProduct (id : Nat) (st : MemState) : Bool × MemState :=
  match jsMapGet (fun p => p.id) st.products id with
  | none => (false, st)
  | some p =>
    let cats :=
      match findCategoryByName st.categories p.category with
      | some cat =>
          jsMapSet (fun c => c.id) st.categories cat.id
            { cat with productCount := max 0 (cat.productCount - 1) }
      | none => st.categories
    (true,
      { st with products := jsMapDelete (fun q => q.id) st.products id,
                categories := cats })

/-- MemStorage.deleteCategory (src/server/db.ts): a bare Map.delete
with no check of referencing products. -/
def deleteCategory (id : Nat) (st : MemState) : Bool × MemState :=
  (st.categories.any (fun c => c.id == id),
    { st with categories := jsMapDelete (fun c => c.id) st.categories id })

/-- MemStorage.getCartItem (src/server/db.ts): first cart row matching
both the cart id and the product id. -/
def getCartItem (cartId : String) (productId : Nat) (st : MemState) : Option CartItem :=
  st.cartItems.find? (fun it => it.cartId == cartId && it.productId == productId)

/-- MemStorage.updateCartItem (src/server/db.ts): missing id returns
undefined; quantity at most 0 deletes the row and returns undefined;
otherwise the quantity is replaced. -/
def updateCartItem (id : Nat) (quantity : Int) (st : MemState) :
    Option CartItem × MemState :=
  match jsMapGet (fun it => it.id) st.cartItems id with
  | none => (none, st)
  | some existing =>
    if quantity ≤ 0 then
      (none, { st with cartItems := jsMapDelete (fun it => it.id) st.cartItems id })
    else
      let updated := { existing with quantity := quantity }
      (some updated,
        { st with cartItems := jsMapSet (fun it => it.id) st.cartItems id updated })

/-- MemStorage.addToCart (src/server/db.ts): merge into the existing
row for the same cart and product by delegating to updateCartItem with
the summed quantity (which deletes the row when the sum is at most 0,
despite the unsound cast to Promise CartItem in the source), otherwise
insert a fresh row with the next id. -/
def addToCart (ci : InsertCartItem) (st : MemState) : Option CartItem × MemState :=
  match getCartItem ci.cartId ci.productId st with
  | some existing => updateCartItem existing.id (existing.quantity + ci.quantity) st
  | none =>
    let id := st.currentCartItemId
    let newItem : CartItem :=
      { id := id, cartId := ci.cartId, productId := ci.productId, quantity := ci.quantity }
    (some newItem,
      { st with cartItems := jsMapSet (fun it => it.id) st.cartItems id newItem,
                currentCartItemId := id + 1 })

end MemStorage

/-- State of PgStorage (src/server/pgStorage.ts): the relational tables
relevant to the claims, in row order, with the next serial id for each
table that the claims insert into. -/
structure PgState where
  products : List Product
  categories : List Category
  cartItems : List CartItem
  orders : List Order
  orderItems : List OrderItem
  nextProductId : Nat
  nextCartItemId : Nat
  nextOrderId : Nat
  nextOrderItemId : Nat
deriving Repr, DecidableEq

namespace PgStorage

/-- PgStorage.createProduct: INSERT the row (applying the payload
defaults: stock falls back to 0, isFeatured to false, isActive to true,
mediaFiles to the empty array), then
UPDATE categories SET product_count = COALESCE(product_count, 0) + 1
WHERE name matches the category of the new product. -/
def createProduct (p : InsertProduct) (st : PgState) : Product × PgState :=
  let row : Product :=
    { id := st.nextProductId
      name := p.name
      description := p.description
      price := p.price
      imageUrl := p.imageUrl
      mediaFiles := p.mediaFiles.getD []
      category := p.category
      stock := p.stock.getD 0
      isFeatured := p.isFeatured.getD false
      isActive := p.isActive.getD true
      sku := p.sku }
  let cats := st.categories.map (fun c =>
    if c.name == p.category then { c with productCount := c.productCount + 1 } else c)
  (row,
    { st with products := st.products ++ [row],
              categories := cats,
              nextProductId := st.nextProductId + 1 })

/-- PgStorage.updateProduct: read the existing row; with an empty patch
return it without writing; otherwise UPDATE the listed fields, and when
the effective category changed (newCategory is the patch category if
truthy, else the old one) decrement the old category count and
increment the new one, with no clamp. -/
def updateProduct (id : Nat) (patch : ProductPatch) (st : PgState) :
    Option Product × PgState :=
  match st.products.find? (fun p => p.id == id) with
  | none => (none, st)
  | some existing =>
    if patch.isEmptyPatch then (some existing, st)
    else
      let oldCategory := existing.category
      let newCategory := jsOrStr patch.category oldCategory
      let products := st.products.map (fun p => if p.id == id then applyPatch p patch else p)
      let cats :=
        if newCategory == oldCategory then st.categories
        else
          let cats1 := st.categories.map (fun c =>
            if c.name == oldCategory then { c with productCount := c.productCount - 1 } else c)
          cats1.map (fun c =>
            if c.name == newCategory then { c with productCount := c.productCount + 1 } else c)
      (some (applyPatch existing patch),
        { st with products := products, categories := cats })

/-- PgStorage.deleteCategory: DELETE FROM categories WHERE id matches,
RETURNING id; reports whether a row was deleted, with no check of
referencing products. -/
def deleteCategory (id : Nat) (st : PgState) : Bool × PgState :=
  (st.categories.any (fun c => c.id == id),
    { st with categories := st.categories.filter (fun c => !(c.id == id)) })

/-- PgStorage.getCartItems: cart rows for the cart id joined with their
product (inner join on product_id = products.id). -/
def getCartItems (cartId : String) (st : PgState) : List CartItemWithProduct :=
  (st.cartItems.filter (fun it => it.cartId == cartId)).filterMap (fun it =>
    (st.products.find? (fun p => p.id == it.productId)).map (fun p =>
      { id := it.id, cartId := it.cartId, productId := it.productId,
        quantity := it.quantity, product := p }))

/-- PgStorage.getCartItem: first row matching the cart id and product
id. -/
def getCartItem (cartId : String) (productId : Nat) (st : PgState) : Option CartItem :=
  st.cartItems.find? (fun it => it.cartId == cartId && it.productId == productId)

/-- PgStorage.removeFromCart: DELETE WHERE id matches, RETURNING id. -/
def removeFromCart (id : Nat) (st : PgState) : Bool × PgState :=
  (st.cartItems.any (fun it => it.id == id),
    { st with cartItems := st.cartItems.filter (fun it => !(it.id == id)) })

/-- PgStorage.updateCartItem: quantity at most 0 removes the row and
returns undefined; otherwise UPDATE the quantity WHERE id matches,
returning undefined when no row matched. -/
def updateCartItem (id : Nat) (quantity : Int) (st : PgState) :
    Option CartItem × PgState :=
  if quantity ≤ 0 then
    (none, (removeFromCart id st).2)
  else
    match st.cartItems.find? (fun it => it.id == id) with
    | none => (none, st)
    | some existing =>
      (some { existing with quantity := quantity },
        { st with cartItems := st.cartItems.map (fun it =>
            if it.id == id then { it with quantity := quantity } else it) })

/-- PgStorage.addToCart: merge into the existing row for the same cart
and product via updateCartItem with existing.quantity plus
(quantity or 1) (JavaScript or: an added quantity of 0 falls back
to 1); otherwise INSERT a fresh row with quantity (quantity or 1). -/
def addToCart (ci : InsertCartItem) (st : PgState) : Option CartItem × PgState :=
  match getCartItem ci.cartId ci.productId st with
  | some existing =>
    updateCartItem existing.id
      (existing.quantity + (if ci.quantity == 0 then 1 else ci.quantity)) st
  | none =>
    let row : CartItem :=
      { id := st.nextCartItemId, cartId := ci.cartId, productId := ci.productId,
        quantity := if ci.quantity == 0 then 1 else ci.quantity }
    (some row,
      { st with cartItems := st.cartItems ++ [row],
                nextCartItemId := st.nextCartItemId + 1 })

/-- PgStorage.clearCart: DELETE FROM cart_items WHERE cart_id matches;
always reports true. -/
def clearCart (cartId : String) (st : PgState) : Bool × PgState :=
  (true, { st with cartItems := st.cartItems.filter (fun it => !(it.cartId == cartId)) })

/-- PgStorage.createOrder: INSERT the order row, applying the
JavaScript or defaults of the source (status and payment status fall
back to pending, shipping country to India, the remaining nullable
fields to null). -/
def createOrder (o : InsertOrder) (st : PgState) : Order × PgState :=
  let row : Order :=
    { id := st.nextOrderId
      userId := o.userId
      totalAmount := o.totalAmount
      status := jsOrStr o.status "pending"
      paymentMethod := jsOrNull o.paymentMethod
      paymentStatus := jsOrStr o.paymentStatus "pending"
      shippingAddress := jsOrNull o.shippingAddress
      shippingCity := jsOrNull o.shippingCity
      shippingState := jsOrNull o.shippingState
      shippingZipCode := jsOrNull o.shippingZipCode
      shippingCountry := jsOrStr o.shippingCountry "India"
      trackingNumber := jsOrNull o.trackingNumber
      notes := jsOrNull o.notes }
  (row, { st with orders := st.orders ++ [row], nextOrderId := st.nextOrderId + 1 })

/-- PgStorage.addOrderItem: INSERT the order item row, copying order
id, product id, quantity and price from the payload. -/
def addOrderItem (oi : InsertOrderItem) (st : PgState) : OrderItem × PgState :=
  let row : OrderItem :=
    { id := st.nextOrderItemId, orderId := oi.orderId, productId := oi.productId,
      quantity := oi.quantity, price := oi.price }
  (row, { st with orderItems := st.orderItems ++ [row],
                  nextOrderItemId := st.nextOrderItemId + 1 })

end PgStorage

/-- Session fields read by the order route (express-session data). -/
structure Session where
  isAuthenticated : Bool
  userId : Option Nat
  cartId : Option String
deriving Repr, DecidableEq

/-- Raw checkout request body before validation: each field either
absent or a string (checkoutSchema rejects non-strings before any of
this logic runs, so only string fields are modelled). -/
structure RawCheckout where
  firstName : Option String
  lastName : Option String
  email : Option String
  phone : Option String
  address : Option String
  city : Option String
  state : Option String
  zipCode : Option String
  country : Option String
  paymentMethod : Option String
deriving Repr, DecidableEq

/-- Validated checkout payload (CheckoutInfo in the schema section of
src/server/db.ts). -/
structure CheckoutInfo where
  firstName : String
  lastName : String
  email : String
  phone : String
  address : String
  city : String
  state : String
  zipCode : String
  country : String
  paymentMethod : String
deriving Repr, DecidableEq

/-- A zod min(1) string field: present and of length at least 1. -/
def reqMin1 (o : Option String) : Option String :=
  match o with
  | none => none
  | some s => if 1 ≤ s.length then some s else none

/-- checkoutSchema.parse: every min(1) field must be a non-empty
string, the email must pass the zod email format check (library code
outside this repository, abstracted as the emailOk parameter), and a
missing country defaults to India. Returns none exactly when the
source throws a ZodError. -/
def checkoutParse (emailOk : String → Bool) (r : RawCheckout) : Option CheckoutInfo := do
  let fn ← reqMin1 r.firstName
  let ln ← reqMin1 r.lastName
  let em ← match r.email with
    | none => none
    | some s => if emailOk s then some s else none
  let ph ← reqMin1 r.phone
  let ad ← reqMin1 r.address
  let ci ← reqMin1 r.city
  let sta ← reqMin1 r.state
  let zip ← reqMin1 r.zipCode
  let co := r.country.getD "India"
  let pm ← reqMin1 r.paymentMethod
  pure { firstName := fn, lastName := ln, email := em, phone := ph, address := ad,
         city := ci, state := sta, zipCode := zip, country := co, paymentMethod := pm }

/-- Response of POST /api/orders, one constructor per return statement
of the handler. -/
inductive OrdersResult where
  /-- 401: not logged in. -/
  | unauthorized : OrdersResult
  /-- 400: checkoutSchema.parse threw a ZodError. -/
  | invalidCheckout : OrdersResult
  /-- 400: the session has no cart id. -/
  | noCartId : OrdersResult
  /-- 400: the cart is empty. -/
  | emptyCart : OrdersResult
  /-- 201: order placed. -/
  | placed : Order → OrdersResult
deriving Repr, DecidableEq

/-- The reduce in the handler: total amount of the cart, summing unit
price times quantity from 0 leftwards. -/
def totalAmountOf (items : List CartItemWithProduct) : Int :=
  items.foldl (fun sum it => sum + it.product.price * it.quantity) 0

/-- The order-items loop of the handler: for each cart row, add an
order item copying product id, quantity and product price, threading
the state. -/
def insertOrderItems (orderId : Nat) (items : List CartItemWithProduct) (st : PgState) : PgState :=
  items.foldl (fun s it =>
    (PgStorage.addOrderItem
      { orderId := orderId, productId := it.product.id,
        quantity := it.quantity, price := it.product.price } s).2) st

/-- The POST /api/orders handler (src/server/routes.ts): reject when
not authenticated (a false flag, a missing user id, or the falsy user
id 0), reject on checkout validation failure, reject on a falsy cart
id, reject on an empty cart; otherwise compute the total, insert the
order, insert one order item per cart row, clear the cart and return
the order. -/
def postApiOrders (sess : Session) (emailOk : String → Bool) (body : RawCheckout)
    (st : PgState) : OrdersResult × PgState :=
  match sess.userId with
  | none => (.unauthorized, st)
  | some uid =>
    if !sess.isAuthenticated || uid == 0 then (.unauthorized, st)
    else
      match checkoutParse emailOk body with
      | none => (.invalidCheckout, st)
      | some cd =>
        match sess.cartId with
        | none => (.noCartId, st)
        | some cartId =>
          if cartId.isEmpty then (.noCartId, st)
          else
            let cartItems := PgStorage.getCartItems cartId st
            if cartItems.length == 0 then (.emptyCart, st)
            else
              let totalAmount := totalAmountOf cartItems
              let inserted := PgStorage.createOrder
                { userId := uid, totalAmount := totalAmount,
                  status := none,
                  paymentMethod := some cd.paymentMethod,
                  paymentStatus := none,
                  shippingAddress := some cd.address,
                  shippingCity := some cd.city,
                  shippingState := some cd.state,
                  shippingZipCode := some cd.zipCode,
                  shippingCountry := some (jsOrStr (some cd.country) "India"),
                  trackingNumber := none, notes := none } st
              let order := inserted.1
              let st2 := insertOrderItems order.id cartItems inserted.2
              let st3 := (PgStorage.clearCart cartId st2).2
              (.placed order, st3)

/-- Projection of an order item to the data the order flow copies from
the cart: order id, product id, quantity, unit price. -/
def orderItemKey (oi : OrderItem) : Nat × Nat × Int × Int :=
  (oi.orderId, oi.productId, oi.quantity, oi.price)

/-- Projection of a cart row to its (cart, product) pair. -/
def cartPair (it : CartItem) : String × Nat := (it.cartId, it.productId)

theorem any_of_find?_eq_some {α : Type} {p : α → Bool} {l : List α} {a : α}
    (h : l.find? p = some a) : l.any p = true :=
  List.any_eq_true.mpr ⟨a, List.mem_of_find?_eq_some h, List.find?_some h⟩

theorem jsMapSet_eq_map {α : Type} (key : α → Nat) (l : List α) (k : Nat) (v : α)
    (h : l.any (fun x => key x == k) = true) :
    jsMapSet key l k v = l.map (fun x => if key x == k then v else x) := by
  simp [jsMapSet, h]

theorem mem_jsMapSet {α : Type} (key : α → Nat) (l : List α) (k : Nat) (v : α) :
    ∀ x ∈ jsMapSet key l k v, x ∈ l ∨ x = v := by
  intro x hx
  unfold jsMapSet at hx
  split at hx
  · obtain ⟨y, hy, he⟩ := List.mem_map.mp hx
    by_cases hk : (key y == k) = true
    · right; rw [if_pos hk] at he; exact he.symm
    · left; rw [if_neg hk] at he; exact he ▸ hy
  · rcases List.mem_append.mp hx with h1 | h1
    · left; exact h1
    · right; simpa using h1

theorem find?_map_congr {α : Type} (g : α → α) (p : α → Bool) (l : List α)
    (h : ∀ x ∈ l, p (g x) = p x) :
    (l.map g).find? p = (l.find? p).map g := by
  induction l with
  | nil => rfl
  | cons a t ih =>
    simp only [List.map_cons, List.find?_cons]
    rw [h a (by simp)]
    cases hpa : p a with
    | true => rfl
    | false => exact ih (fun x hx => h x (by simp [hx]))

theorem foldl_add_eq_sum {α : Type} (f : α → Int) (l : List α) (a : Int) :
    l.foldl (fun s x => s + f x) a = a + (l.map f).sum := by
  induction l generalizing a with
  | nil => simp
  | cons x t ih => simp [List.foldl_cons, ih, add_assoc]

theorem filter_not_filter_self {α : Type} (p : α → Bool) (l : List α) :
    (l.filter (fun x => !(p x))).filter p = [] := by
  induction l with
  | nil => rfl
  | cons a t ih => by_cases h : p a <;> simp [List.filter_cons, h, ih]

theorem insertOrderItems_spec (oid : Nat) (items : List CartItemWithProduct) (st : PgState) :
    (insertOrderItems oid items st).orders = st.orders ∧
    (insertOrderItems oid items st).cartItems = st.cartItems ∧
    (insertOrderItems oid items st).products = st.products ∧
    (insertOrderItems oid items st).categories = st.categories ∧
    (insertOrderItems oid items st).orderItems.map orderItemKey =
      st.orderItems.map orderItemKey ++
        items.map (fun it => (oid, it.product.id, it.quantity, it.product.price)) := by
  induction items generalizing st with
  | nil => simp [insertOrderItems]
  | cons hd t ih =>
    have step := ih ((PgStorage.addOrderItem
      { orderId := oid, productId := hd.product.id,
        quantity := hd.quantity, price := hd.product.price } st).2)
    simp only [insertOrderItems, List.foldl_cons] at step ⊢
    simpa [PgStorage.addOrderItem, orderItemKey] using step

/-- Frame of PgStorage.updateProduct: it writes products and category
counts only; orders, order items and cart items are untouched. -/
theorem updateProduct_frame (pid : Nat) (patch : ProductPatch) (st : PgState) :
    (PgStorage.updateProduct pid patch st).2.orderItems = st.orderItems ∧
    (PgStorage.updateProduct pid patch st).2.orders = st.orders ∧
    (PgStorage.updateProduct pid patch st).2.cartItems = st.cartItems := by
  unfold PgStorage.updateProduct
  split
  · exact ⟨rfl, rfl, rfl⟩
  · split
    · exact ⟨rfl, rfl, rfl⟩
    · exact ⟨rfl, rfl, rfl⟩

/-- C5: an order item freezes the unit price at order time.
addOrderItem stores exactly the payload price as the row price, and a
later updateProduct (in particular a price change) rewrites only the
products and categories tables, leaving every order item row, hence
its stored price, unchanged. -/
theorem C5_order_item_price_frozen (st : PgState) (oi : InsertOrderItem)
    (pid : Nat) (patch : ProductPatch) :
    (PgStorage.addOrderItem oi st).1.price = oi.price ∧
    (PgStorage.addOrderItem oi st).2.orderItems =
      st.orderItems ++ [(PgStorage.addOrderItem oi st).1] ∧
    (PgStorage.updateProduct pid patch (PgStorage.addOrderItem oi st).2).2.orderItems =
      st.orderItems ++ [(PgStorage.addOrderItem oi st).1] ∧
    (PgStorage.updateProduct pid patch st).2.orderItems = st.orderItems ∧
    (PgStorage.updateProduct pid patch st).2.orders = st.orders ∧
    (PgStorage.updateProduct pid patch st).2.cartItems = st.cartItems := by
  refine ⟨rfl, rfl, ?_, (updateProduct_frame pid patch st).1,
    (updateProduct_frame pid patch st).2.1, (updateProduct_frame pid patch st).2.2⟩
  exact (updateProduct_frame pid patch (PgStorage.addOrderItem oi st).2).1

/-- C9: order placement performs no stock decrement: for every request
to POST /api/orders (every branch of the handler, in particular every
successful placement), the products table, and with it the stock of
every product, is exactly what it was before. -/
theorem C9_no_stock_decrement (sess : Session) (emailOk : String → Bool)
    (body : RawCheckout) (st : PgState) :
    (postApiOrders sess emailOk body st).2.products = st.products ∧
    (postApiOrders sess emailOk body st).2.products.map (fun p => (p.id, p.stock)) =
      st.products.map (fun p => (p.id, p.stock)) := by
  have h : (postApiOrders sess emailOk body st).2.products = st.products := by
    unfold postApiOrders
    split
    · rfl
    · split
      · rfl
      · split
        · rfl
        · split
          · rfl
          · split
            · rfl
            · dsimp only
              split
              · rfl
              · simp only [PgStorage.clearCart]
                rw [(insertOrderItems_spec _ _ _).2.2.1]
                simp [PgStorage.createOrder]
  exact ⟨h, by rw [h]⟩

/-- C4: updating a cart item to quantity 0 or below returns no item
and removes the row, in both storage implementations; the resulting
cart table is the old one with every row of that id filtered out (when
the id is absent, both return no item and leave the cart as it was,
which the same filter expresses). -/
theorem C4_nonpositive_quantity_removes_row (st : MemState) (stp : PgState)
    (id : Nat) (q : Int) (hq : q ≤ 0) :
    MemStorage.updateCartItem id q st =
      (none, { st with cartItems := st.cartItems.filter (fun it => !(it.id == id)) }) ∧
    PgStorage.updateCartItem id q stp =
      (none, { stp with cartItems := stp.cartItems.filter (fun it => !(it.id == id)) }) := by
  constructor
  · unfold MemStorage.updateCartItem
    cases h : jsMapGet (fun it => it.id) st.cartItems id with
    | none =>
      have hfix : st.cartItems.filter (fun it => !(it.id == id)) = st.cartItems :=
        List.filter_eq_self.mpr (fun a ha => by
          have := List.find?_eq_none.mp h a ha
          simpa using this)
      simp [hfix]
    | some existing => simp [hq, jsMapDelete]
  · unfold PgStorage.updateCartItem PgStorage.removeFromCart
    simp [hq]

/-- Cart state for the C4 witness: one row with id 1. -/
def cartStateC4 : MemState :=
  { products := [], categories := [],
    cartItems := [{ id := 1, cartId := "c", productId := 9, quantity := 2 }],
    currentProductId := 1, currentCategoryId := 1, currentCartItemId := 2 }

/-- Cart state for the C4 witness on the PgStorage side. -/
def pgCartStateC4 : PgState :=
  { products := [], categories := [],
    cartItems := [{ id := 1, cartId := "c", productId := 9, quantity := 2 }],
    orders := [], orderItems := [],
    nextProductId := 1, nextCartItemId := 2, nextOrderId := 1, nextOrderItemId := 1 }

/-- Witness for C4 at quantity 0 on a cart holding one row with id 1:
the row is removed and nothing is returned. -/
theorem C4_witness :
    ((0 : Int) ≤ 0) ∧
    (MemStorage.updateCartItem 1 0 cartStateC4 =
      (none, { cartStateC4 with
        cartItems := cartStateC4.cartItems.filter (fun it => !(it.id == 1)) }) ∧
    PgStorage.updateCartItem 1 0 pgCartStateC4 =
      (none, { pgCartStateC4 with
        cartItems := pgCartStateC4.cartItems.filter (fun it => !(it.id == 1)) })) :=
  ⟨by decide, C4_nonpositive_quantity_removes_row cartStateC4 pgCartStateC4 1 0 (by decide)⟩

/-- Sample fabric product referencing the category named frock, used by
the category-deletion scenarios. -/
def frockProduct : Product :=
  { id := 1, name := "Silk Frock Material", description := "sample",
    price := 499, imageUrl := "u", mediaFiles := [], category := "frock",
    stock := 10, isFeatured := false, isActive := true, sku := "FB-FR-001" }

/-- MemStorage state for the C8 scenario: one category (id 1, frock)
still referenced by one product. -/
def memStateC8 : MemState :=
  { products := [frockProduct],
    categories := [{ id := 1, name := "frock", description := none, productCount := 1 }],
    cartItems := [],
    currentProductId := 2, currentCategoryId := 2, currentCartItemId := 1 }

/-- PgStorage state for the C8 scenario: one category (id 1, frock)
still referenced by one product. -/
def pgStateC8 : PgState :=
  { products := [frockProduct],
    categories := [{ id := 1, name := "frock", description := none, productCount := 1 }],
    cartItems := [], orders := [], orderItems := [],
    nextProductId := 2, nextCartItemId := 1, nextOrderId := 1, nextOrderItemId := 1 }

/-- C8 counterexample: category 1 (frock) is still referenced by a
product, yet deleteCategory reports success and removes the category
row in both implementations, contradicting the claim that the deletion
is rejected and the category kept. -/
theorem C8_counterexample :
    (∃ c ∈ memStateC8.categories, c.id = 1 ∧ c.name = "frock") ∧
    (∃ p ∈ memStateC8.products, p.category = "frock") ∧
    (MemStorage.deleteCategory 1 memStateC8).1 = true ∧
    (¬ ∃ c ∈ (MemStorage.deleteCategory 1 memStateC8).2.categories, c.id = 1) ∧
    (PgStorage.deleteCategory 1 pgStateC8).1 = true ∧
    (¬ ∃ c ∈ (PgStorage.deleteCategory 1 pgStateC8).2.categories, c.id = 1) := by
  decide

/-- C8 as amended: deleteCategory performs no referencing-products
check in either implementation. Even when a category still has
products referencing it by name, the operation reports success,
removes every category row with that id, and leaves the referencing
products in place (orphaned). -/
theorem C8_delete_category_unconditional
    (st : MemState) (stp : PgState) (id : Nat) (c cp : Category)
    (hc : c ∈ st.categories) (hcid : c.id = id)
    (href : ∃ p ∈ st.products, p.category = c.name)
    (hcp : cp ∈ stp.categories) (hcpid : cp.id = id)
    (hrefp : ∃ p ∈ stp.products, p.category = cp.name) :
    (MemStorage.deleteCategory id st).1 = true ∧
    (MemStorage.deleteCategory id st).2.categories =
      st.categories.filter (fun x => !(x.id == id)) ∧
    (MemStorage.deleteCategory id st).2.products = st.products ∧
    (PgStorage.deleteCategory id stp).1 = true ∧
    (PgStorage.deleteCategory id stp).2.categories =
      stp.categories.filter (fun x => !(x.id == id)) ∧
    (PgStorage.deleteCategory id stp).2.products = stp.products := by
  refine ⟨?_, rfl, rfl, ?_, rfl, rfl⟩
  · exact List.any_eq_true.mpr ⟨c, hc, by simp [hcid]⟩
  · exact List.any_eq_true.mpr ⟨cp, hcp, by simp [hcpid]⟩

/-- Witness for the amended C8 at the concrete scenario: the frock
category is removed and reported deleted while its product stays. -/
theorem C8_witness :
    ((⟨1, "frock", none, 1⟩ : Category) ∈ memStateC8.categories ∧
      (∃ p ∈ memStateC8.products, p.category = "frock") ∧
      (⟨1, "frock", none, 1⟩ : Category) ∈ pgStateC8.categories ∧
      (∃ p ∈ pgStateC8.products, p.category = "frock")) ∧
    ((MemStorage.deleteCategory 1 memStateC8).1 = true ∧
      (MemStorage.deleteCategory 1 memStateC8).2.categories =
        memStateC8.categories.filter (fun x => !(x.id == 1)) ∧
      (MemStorage.deleteCategory 1 memStateC8).2.products = memStateC8.products ∧
      (PgStorage.deleteCategory 1 pgStateC8).1 = true ∧
      (PgStorage.deleteCategory 1 pgStateC8).2.categories =
        pgStateC8.categories.filter (fun x => !(x.id == 1)) ∧
      (PgStorage.deleteCategory 1 pgStateC8).2.products = pgStateC8.products) :=
  ⟨by decide,
    C8_delete_category_unconditional memStateC8 pgStateC8 1
      ⟨1, "frock", none, 1⟩ ⟨1, "frock", none, 1⟩
      (by decide) rfl ⟨frockProduct, by decide⟩
      (by decide) rfl ⟨frockProduct, by decide⟩⟩

/-- Every category row produced by the decrement-with-clamp step of
MemStorage (find the category by name, store max 0 of the count minus
one) has a non-negative count when all rows had one before. -/
theorem nonneg_after_clamped_dec (cats : List Category) (nm : String)
    (h : ∀ c ∈ cats, 0 ≤ c.productCount) :
    ∀ c : Category,
      c ∈ (match findCategoryByName cats nm with
           | some cat => jsMapSet (fun x : Category => x.id) cats cat.id
               { cat with productCount := max 0 (cat.productCount - 1) }
           | none => cats) → 0 ≤ c.productCount := by
  intro c hc
  cases hf : findCategoryByName cats nm with
  | none => rw [hf] at hc; exact h c hc
  | some cat =>
    rw [hf] at hc
    rcases mem_jsMapSet _ _ _ _ c hc with hm | he
    · exact h c hm
    · rw [he]; exact le_max_left 0 _

/-- Every category row produced by the increment step of MemStorage
has a non-negative count when all rows had one before. -/
theorem nonneg_after_inc (cats : List Category) (nm : String)
    (h : ∀ c ∈ cats, 0 ≤ c.productCount) :
    ∀ c : Category,
      c ∈ (match findCategoryByName cats nm with
           | some cat => jsMapSet (fun x : Category => x.id) cats cat.id
               { cat with productCount := cat.productCount + 1 }
           | none => cats) → 0 ≤ c.productCount := by
  intro c hc
  cases hf : findCategoryByName cats nm with
  | none => rw [hf] at hc; exact h c hc
  | some cat =>
    rw [hf] at hc
    rcases mem_jsMapSet _ _ _ _ c hc with hm | he
    · exact h c hm
    · rw [he]
      have hcat := h cat (List.mem_of_find?_eq_some hf)
      show 0 ≤ cat.productCount + 1
      omega

/-- C10: the MemStorage count decrements are clamped at zero. If every
category count is non-negative before an updateProduct (with any patch)
or a deleteProduct, every category count is non-negative afterwards:
the Math.max(0, n - 1) clamp never drives a count below 0. -/
theorem C10_mem_counts_stay_nonneg (st : MemState)
    (h : ∀ c ∈ st.categories, 0 ≤ c.productCount) :
    (∀ (id : Nat) (patch : ProductPatch),
      ∀ c ∈ (MemStorage.updateProduct id patch st).2.categories, 0 ≤ c.productCount) ∧
    (∀ id : Nat,
      ∀ c ∈ (MemStorage.deleteProduct id st).2.categories, 0 ≤ c.productCount) := by
  constructor
  · intro id patch c hc
    unfold MemStorage.updateProduct at hc
    revert hc
    cases hget : jsMapGet (fun p => p.id) st.products id with
    | none => exact fun hc => h c hc
    | some existing =>
      dsimp only
      split
      · exact nonneg_after_inc _ _ (nonneg_after_clamped_dec _ _ h) c
      · exact fun hc => h c hc
  · intro id c hc
    unfold MemStorage.deleteProduct at hc
    revert hc
    cases hget : jsMapGet (fun p => p.id) st.products id with
    | none => exact fun hc => h c hc
    | some p =>
      exact nonneg_after_clamped_dec _ _ h c

/-- MemStorage state for the C10 witness: one product in the frock
category whose count already sits at 0 (a drifted counter), a second
category for the move. -/
def memStateC10 : MemState :=
  { products := [frockProduct],
    categories := [{ id := 1, name := "frock", description := none, productCount := 0 },
                   { id := 2, name := "net", description := none, productCount := 0 }],
    cartItems := [],
    currentProductId := 2, currentCategoryId := 3, currentCartItemId := 1 }

/-- Patch moving a product to the net category. -/
def patchToNet : ProductPatch :=
  { name := none, description := none, price := none, imageUrl := none,
    mediaFiles := none, category := some "net", stock := none,
    isFeatured := none, isActive := none, sku := none }

/-- Witness for C10: on a state with both counts at 0, a category move
and a delete both leave every count non-negative. -/
theorem C10_witness :
    (∀ c ∈ memStateC10.categories, 0 ≤ c.productCount) ∧
    (∀ c ∈ (MemStorage.updateProduct 1 patchToNet memStateC10).2.categories,
      0 ≤ c.productCount) ∧
    (∀ c ∈ (MemStorage.deleteProduct 1 memStateC10).2.categories,
      0 ≤ c.productCount) :=
  ⟨by decide,
    (C10_mem_counts_stay_nonneg memStateC10 (by decide)).1 1 patchToNet,
    (C10_mem_counts_stay_nonneg memStateC10 (by decide)).2 1⟩

/-- Replacing the entry of a found category by a value with the same
name (the Map.set step of the MemStorage count maintenance, over a Map
whose ids are unique) commutes with lookup by any name: the lookup
result is the old one with the replacement applied. -/
theorem findByName_jsMapSet (cats : List Category) (cat v : Category) (nm : String)
    (hv : v.name = cat.name)
    (hnd : (cats.map (fun c : Category => c.id)).Nodup)
    (hmem : cat ∈ cats) :
    findCategoryByName (jsMapSet (fun c : Category => c.id) cats cat.id v) nm =
      (findCategoryByName cats nm).map (fun x => if x.id == cat.id then v else x) := by
  have hany : cats.any (fun x : Category => x.id == cat.id) = true :=
    List.any_eq_true.mpr ⟨cat, hmem, by simp⟩
  rw [jsMapSet_eq_map _ _ _ _ hany]
  unfold findCategoryByName
  exact find?_map_congr _ _ _ (fun x hx => by
    by_cases hid : (x.id == cat.id) = true
    · have hx_eq : x = cat :=
        List.inj_on_of_nodup_map hnd hx hmem (by simpa using hid)
      simp [hid, hv, hx_eq]
    · simp [hid])

/-- The per-name count adjustment of PgStorage (UPDATE categories SET
product_count ... WHERE name matches) commutes with lookup by any
name: the looked-up count is adjusted exactly when the two names
coincide. -/
theorem reportedCount_map_byName (cats : List Category) (nm nm2 : String) (f : Int → Int) :
    reportedCount (cats.map (fun c =>
        if c.name == nm then { c with productCount := f c.productCount } else c)) nm2 =
      (reportedCount cats nm2).map (fun n => if nm2 == nm then f n else n) := by
  unfold reportedCount findCategoryByName
  rw [find?_map_congr _ _ _ (fun x hx => by
    by_cases hxn : (x.name == nm) = true <;> simp [hxn])]
  cases hf : cats.find? (fun c => c.name == nm2) with
  | none => rfl
  | some c =>
    have hc2 : c.name = nm2 := by simpa using List.find?_some hf
    by_cases h2 : (nm2 == nm) = true
    · simp [Option.map, hc2, h2]
    · simp [Option.map, hc2, h2]

/-- C6: createProduct increments the matching category count by
exactly 1 in both implementations: when a category row carrying the
new product's category name exists (the reported count being read off
the first row with that name, with the usual Map invariant of unique
ids for MemStorage), the reported product_count after the create is
the reported count before plus 1. -/
theorem C6_create_product_increments_count
    (p : InsertProduct) (st : MemState) (stp : PgState) (cat catp : Category)
    (hnd : (st.categories.map (fun c : Category => c.id)).Nodup)
    (hfind : findCategoryByName st.categories p.category = some cat)
    (hfindp : findCategoryByName stp.categories p.category = some catp) :
    reportedCount st.categories p.category = some cat.productCount ∧
    reportedCount (MemStorage.createProduct p st).2.categories p.category =
      some (cat.productCount + 1) ∧
    reportedCount stp.categories p.category = some catp.productCount ∧
    reportedCount (PgStorage.createProduct p stp).2.categories p.category =
      some (catp.productCount + 1) := by
  have hfind0 : st.categories.find? (fun c => c.name == p.category) = some cat := hfind
  have hmem : cat ∈ st.categories := List.mem_of_find?_eq_some hfind0
  refine ⟨?_, ?_, ?_, ?_⟩
  · unfold reportedCount
    rw [hfind]
    rfl
  · have hMemCats : (MemStorage.createProduct p st).2.categories =
        jsMapSet (fun c : Category => c.id) st.categories cat.id
          { cat with productCount := cat.productCount + 1 } := by
      unfold MemStorage.createProduct
      simp only [hfind]
    rw [hMemCats]
    unfold reportedCount
    rw [findByName_jsMapSet st.categories cat
      { cat with productCount := cat.productCount + 1 } p.category rfl hnd hmem]
    rw [hfind]
    simp
  · unfold reportedCount
    rw [hfindp]
    rfl
  · have hPgCats : (PgStorage.createProduct p stp).2.categories =
        stp.categories.map (fun c =>
          if c.name == p.category then { c with productCount := c.productCount + 1 } else c) :=
      rfl
    rw [hPgCats]
    have h := reportedCount_map_byName stp.categories p.category p.category (fun n => n + 1)
    simp only [beq_self_eq_true, if_true] at h
    rw [h]
    unfold reportedCount
    rw [hfindp]
    rfl

/-- MemStorage state for the C6 witness: the frock category at count 2
with unique ids. -/
def memStateC6 : MemState :=
  { products := [],
    categories := [{ id := 1, name := "frock", description := none, productCount := 2 },
                   { id := 2, name := "net", description := none, productCount := 0 }],
    cartItems := [],
    currentProductId := 1, currentCategoryId := 3, currentCartItemId := 1 }

/-- PgStorage state for the C6 witness. -/
def pgStateC6 : PgState :=
  { products := [],
    categories := [{ id := 1, name := "frock", description := none, productCount := 2 },
                   { id := 2, name := "net", description := none, productCount := 0 }],
    cartItems := [], orders := [], orderItems := [],
    nextProductId := 1, nextCartItemId := 1, nextOrderId := 1, nextOrderItemId := 1 }

/-- Insert payload for a new frock product. -/
def insertFrock : InsertProduct :=
  { name := "Cotton Frock Material", description := "sample", price := 399,
    imageUrl := "u", mediaFiles := none, category := "frock",
    stock := some 5, isFeatured := none, isActive := none, sku := "FB-FR-002" }

/-- Witness for C6: creating a frock product moves the frock count
from 2 to 3 in both implementations. -/
theorem C6_witness :
    ((memStateC6.categories.map (fun c : Category => c.id)).Nodup ∧
      findCategoryByName memStateC6.categories "frock" =
        some { id := 1, name := "frock", description := none, productCount := 2 } ∧
      findCategoryByName pgStateC6.categories "frock" =
        some { id := 1, name := "frock", description := none, productCount := 2 }) ∧
    (reportedCount memStateC6.categories "frock" = some 2 ∧
      reportedCount (MemStorage.createProduct insertFrock memStateC6).2.categories "frock" =
        some 3 ∧
      reportedCount pgStateC6.categories "frock" = some 2 ∧
      reportedCount (PgStorage.createProduct insertFrock pgStateC6).2.categories "frock" =
        some 3) :=
  ⟨by decide,
    C6_create_product_increments_count insertFrock memStateC6 pgStateC6
      ⟨1, "frock", none, 2⟩ ⟨1, "frock", none, 2⟩
      (by decide) (by decide) (by decide)⟩

/-- Decrement-by-name (the first category UPDATE of
PgStorage.updateProduct) commutes with the reported count. -/
theorem reportedCount_map_decByName (cats : List Category) (nm nm2 : String) :
    reportedCount (cats.map (fun c =>
        if c.name == nm then { c with productCount := c.productCount - 1 } else c)) nm2 =
      (reportedCount cats nm2).map (fun n => if nm2 == nm then n - 1 else n) :=
  reportedCount_map_byName cats nm nm2 (fun n => n - 1)

/-- Increment-by-name (the second category UPDATE of
PgStorage.updateProduct and the UPDATE of PgStorage.createProduct)
commutes with the reported count. -/
theorem reportedCount_map_incByName (cats : List Category) (nm nm2 : String) :
    reportedCount (cats.map (fun c =>
        if c.name == nm then { c with productCount := c.productCount + 1 } else c)) nm2 =
      (reportedCount cats nm2).map (fun n => if nm2 == nm then n + 1 else n) :=
  reportedCount_map_byName cats nm nm2 (fun n => n + 1)

/-- C7 counterexample: in MemStorage, moving the only frock product to
the net category while the frock count already (incorrectly) sits at 0
leaves the frock count at 0 because of the Math.max(0, n - 1) clamp;
the claimed decrement by exactly 1 (which would give -1) does not
happen. -/
theorem C7_counterexample :
    reportedCount memStateC10.categories "frock" = some 0 ∧
    memStateC10.products = [frockProduct] ∧
    frockProduct.category = "frock" ∧
    patchToNet.category = some "net" ∧
    reportedCount (MemStorage.updateProduct 1 patchToNet memStateC10).2.categories
      "frock" = some 0 ∧
    ¬ (reportedCount (MemStorage.updateProduct 1 patchToNet memStateC10).2.categories
        "frock" =
      (reportedCount memStateC10.categories "frock").map (fun n => n - 1)) := by
  decide

/-- PgStorage.updateProduct with a category change from the old
category to a truthy different N: the reported count of the old
category drops by exactly 1 and the reported count of N rises by
exactly 1 (no clamping). -/
theorem pg_updateProduct_change_counts (stp : PgState) (pid : Nat) (patch : ProductPatch)
    (existing : Product) (N : String)
    (hfind : stp.products.find? (fun q => q.id == pid) = some existing)
    (hcat : patch.category = some N)
    (hNe : N.isEmpty = false)
    (hne : (N == existing.category) = false) :
    reportedCount (PgStorage.updateProduct pid patch stp).2.categories existing.category =
      (reportedCount stp.categories existing.category).map (fun n => n - 1) ∧
    reportedCount (PgStorage.updateProduct pid patch stp).2.categories N =
      (reportedCount stp.categories N).map (fun n => n + 1) := by
  have hONe : (existing.category == N) = false := by
    have : N ≠ existing.category := by simpa using hne
    simpa using fun h => this h.symm
  have hempty : patch.isEmptyPatch = false := by
    simp [ProductPatch.isEmptyPatch, hcat]
  have hcats : (PgStorage.updateProduct pid patch stp).2.categories =
      (stp.categories.map (fun c =>
        if c.name == existing.category
        then { c with productCount := c.productCount - 1 } else c)).map
        (fun c => if c.name == N then { c with productCount := c.productCount + 1 } else c) := by
    unfold PgStorage.updateProduct
    rw [hfind]
    simp only [hempty, Bool.false_eq_true, if_false, hcat, jsOrStr, hNe, hne]
  constructor
  · rw [hcats, reportedCount_map_incByName, reportedCount_map_decByName]
    simp [hONe, Function.comp_def]
  · rw [hcats, reportedCount_map_incByName, reportedCount_map_decByName]
    simp [hne, Function.comp_def]

/-- MemStorage.updateProduct with a category change from the old
category to a truthy different N (both category rows present, Map ids
unique): the old count is decremented with the Math.max clamp at zero
and the count of N is incremented by 1. -/
theorem mem_updateProduct_change_counts (st : MemState) (pid : Nat) (patch : ProductPatch)
    (existing : Product) (N : String) (co cn : Category)
    (hnd : (st.categories.map (fun c : Category => c.id)).Nodup)
    (hget : jsMapGet (fun q : Product => q.id) st.products pid = some existing)
    (hcat : patch.category = some N)
    (hNe : N.isEmpty = false)
    (hne : (N == existing.category) = false)
    (hO : findCategoryByName st.categories existing.category = some co)
    (hN : findCategoryByName st.categories N = some cn) :
    reportedCount (MemStorage.updateProduct pid patch st).2.categories existing.category =
      some (max 0 (co.productCount - 1)) ∧
    reportedCount (MemStorage.updateProduct pid patch st).2.categories N =
      some (cn.productCount + 1) := by
  have hO0 : st.categories.find? (fun c => c.name == existing.category) = some co := hO
  have hN0 : st.categories.find? (fun c => c.name == N) = some cn := hN
  have hcoName : co.name = existing.category := by simpa using List.find?_some hO0
  have hcnName : cn.name = N := by simpa using List.find?_some hN0
  have hcoMem : co ∈ st.categories := List.mem_of_find?_eq_some hO0
  have hcnMem : cn ∈ st.categories := List.mem_of_find?_eq_some hN0
  have hNneO : N ≠ existing.category := by simpa using hne
  have hcocn : co ≠ cn := fun h => hNneO (by rw [← hcnName, ← h, hcoName])
  have hids : co.id ≠ cn.id :=
    fun h => hcocn (List.inj_on_of_nodup_map hnd hcoMem hcnMem h)
  have hcnco : (cn.id == co.id) = false := by
    simpa using fun h => hids h.symm
  have hanyco : st.categories.any (fun x : Category => x.id == co.id) = true :=
    List.any_eq_true.mpr ⟨co, hcoMem, by simp⟩
  have hfindN1 : findCategoryByName
      (jsMapSet (fun c : Category => c.id) st.categories co.id
        { co with productCount := max 0 (co.productCount - 1) }) N = some cn := by
    rw [findByName_jsMapSet st.categories co
      { co with productCount := max 0 (co.productCount - 1) } N rfl hnd hcoMem, hN]
    simp [hcnco]
    intro h
    exact absurd h.symm hids
  have hcatsEq : (MemStorage.updateProduct pid patch st).2.categories =
      jsMapSet (fun c : Category => c.id)
        (jsMapSet (fun c : Category => c.id) st.categories co.id
          { co with productCount := max 0 (co.productCount - 1) }) cn.id
        { cn with productCount := cn.productCount + 1 } := by
    unfold MemStorage.updateProduct
    rw [hget]
    simp only [hcat, jsTruthyStr, hNe, Option.getD_some, hne, Bool.not_false,
      Bool.and_self, if_true, hO, hfindN1]
  have hids1 : ((jsMapSet (fun c : Category => c.id) st.categories co.id
      { co with productCount := max 0 (co.productCount - 1) }).map
        (fun c : Category => c.id)) = st.categories.map (fun c : Category => c.id) := by
    rw [jsMapSet_eq_map _ _ _ _ hanyco, List.map_map]
    apply List.map_congr_left
    intro a ha
    by_cases h : (a.id == co.id) = true
    · have : a.id = co.id := by simpa using h
      simp [Function.comp, h, this]
    · simp [Function.comp, h]
  have hnd1 : ((jsMapSet (fun c : Category => c.id) st.categories co.id
      { co with productCount := max 0 (co.productCount - 1) }).map
        (fun c : Category => c.id)).Nodup := by
    rw [hids1]; exact hnd
  have hcnMem1 : cn ∈ jsMapSet (fun c : Category => c.id) st.categories co.id
      { co with productCount := max 0 (co.productCount - 1) } := by
    rw [jsMapSet_eq_map _ _ _ _ hanyco]
    exact List.mem_map.mpr ⟨cn, hcnMem, by simp [hcnco]⟩
  constructor
  · rw [hcatsEq]
    unfold reportedCount
    rw [findByName_jsMapSet _ cn { cn with productCount := cn.productCount + 1 }
      existing.category rfl hnd1 hcnMem1]
    rw [findByName_jsMapSet st.categories co
      { co with productCount := max 0 (co.productCount - 1) } existing.category rfl hnd hcoMem]
    rw [hO]
    have hcoid : (co.id == cn.id) = false := by simpa using hids
    simp [hcoid]
    rw [if_neg hids]
  · rw [hcatsEq]
    unfold reportedCount
    rw [findByName_jsMapSet _ cn { cn with productCount := cn.productCount + 1 }
      N rfl hnd1 hcnMem1]
    rw [hfindN1]
    simp

/-- An updateProduct whose patch carries no category leaves the
category table unchanged in both implementations. -/
theorem updateProduct_counts_unchanged_none (st : MemState) (stp : PgState)
    (pid pidp : Nat) (patch : ProductPatch) (hcat : patch.category = none) :
    (MemStorage.updateProduct pid patch st).2.categories = st.categories ∧
    (PgStorage.updateProduct pidp patch stp).2.categories = stp.categories := by
  constructor
  · unfold MemStorage.updateProduct
    cases hget : jsMapGet (fun q : Product => q.id) st.products pid with
    | none => rfl
    | some existing => simp [jsTruthyStr, hcat]
  · unfold PgStorage.updateProduct
    cases hfind : stp.products.find? (fun q => q.id == pidp) with
    | none => rfl
    | some existing =>
      by_cases he : patch.isEmptyPatch = true
      · simp [he]
      · simp [he, jsOrStr, hcat]

/-- An updateProduct whose patch carries the same category the product
already has leaves the category table unchanged in both
implementations. -/
theorem updateProduct_counts_unchanged_same (st : MemState) (stp : PgState)
    (pid pidp : Nat) (patch : ProductPatch) (existing existingp : Product)
    (hget : jsMapGet (fun q : Product => q.id) st.products pid = some existing)
    (hcat : patch.category = some existing.category)
    (hfindp : stp.products.find? (fun q => q.id == pidp) = some existingp)
    (hcatp : patch.category = some existingp.category) :
    (MemStorage.updateProduct pid patch st).2.categories = st.categories ∧
    (PgStorage.updateProduct pidp patch stp).2.categories = stp.categories := by
  constructor
  · unfold MemStorage.updateProduct
    rw [hget]
    simp [hcat]
  · unfold PgStorage.updateProduct
    rw [hfindp]
    by_cases he : patch.isEmptyPatch = true
    · simp [he]
    · simp [he, hcatp, jsOrStr, ite_self]

/-- C7 as amended: when updateProduct changes a product category from
O to a (truthy, different) N, PgStorage decrements the reported count
of O by exactly 1 and increments that of N by exactly 1; MemStorage
increments N by 1 but clamps the decrement of O at zero (Math.max(0,
count - 1)), so a count already at 0 stays 0 instead of becoming -1;
and an update that does not change the category (no category in the
patch, or the same category) leaves all category counts unchanged in
both implementations. -/
theorem C7_category_change_count_maintenance :
    (∀ (stp : PgState) (pid : Nat) (patch : ProductPatch) (existing : Product) (N : String),
      stp.products.find? (fun q => q.id == pid) = some existing →
      patch.category = some N → N.isEmpty = false → (N == existing.category) = false →
      reportedCount (PgStorage.updateProduct pid patch stp).2.categories existing.category =
        (reportedCount stp.categories existing.category).map (fun n => n - 1) ∧
      reportedCount (PgStorage.updateProduct pid patch stp).2.categories N =
        (reportedCount stp.categories N).map (fun n => n + 1)) ∧
    (∀ (st : MemState) (pid : Nat) (patch : ProductPatch) (existing : Product)
        (N : String) (co cn : Category),
      (st.categories.map (fun c : Category => c.id)).Nodup →
      jsMapGet (fun q : Product => q.id) st.products pid = some existing →
      patch.category = some N → N.isEmpty = false → (N == existing.category) = false →
      findCategoryByName st.categories existing.category = some co →
      findCategoryByName st.categories N = some cn →
      reportedCount (MemStorage.updateProduct pid patch st).2.categories existing.category =
        some (max 0 (co.productCount - 1)) ∧
      reportedCount (MemStorage.updateProduct pid patch st).2.categories N =
        some (cn.productCount + 1)) ∧
    (∀ (st : MemState) (stp : PgState) (pid pidp : Nat) (patch : ProductPatch),
      patch.category = none →
      (MemStorage.updateProduct pid patch st).2.categories = st.categories ∧
      (PgStorage.updateProduct pidp patch stp).2.categories = stp.categories) ∧
    (∀ (st : MemState) (stp : PgState) (pid pidp : Nat) (patch : ProductPatch)
        (existing existingp : Product),
      jsMapGet (fun q : Product => q.id) st.products pid = some existing →
      patch.category = some existing.category →
      stp.products.find? (fun q => q.id == pidp) = some existingp →
      patch.category = some existingp.category →
      (MemStorage.updateProduct pid patch st).2.categories = st.categories ∧
      (PgStorage.updateProduct pidp patch stp).2.categories = stp.categories) := by
  refine ⟨?_, ?_, ?_, ?_⟩
  · intro stp pid patch existing N h1 h2 h3 h4
    exact pg_updateProduct_change_counts stp pid patch existing N h1 h2 h3 h4
  · intro st pid patch existing N co cn h0 h1 h2 h3 h4 h5 h6
    exact mem_updateProduct_change_counts st pid patch existing N co cn h0 h1 h2 h3 h4 h5 h6
  · intro st stp pid pidp patch h
    exact updateProduct_counts_unchanged_none st stp pid pidp patch h
  · intro st stp pid pidp patch e ep h1 h2 h3 h4
    exact updateProduct_counts_unchanged_same st stp pid pidp patch e ep h1 h2 h3 h4

/-- MemStorage state for the C7 witness: frock at count 2, net at
count 5, one frock product. -/
def memStateC7w : MemState :=
  { products := [frockProduct],
    categories := [{ id := 1, name := "frock", description := none, productCount := 2 },
                   { id := 2, name := "net", description := none, productCount := 5 }],
    cartItems := [],
    currentProductId := 2, currentCategoryId := 3, currentCartItemId := 1 }

/-- PgStorage state for the C7 witness. -/
def pgStateC7w : PgState :=
  { products := [frockProduct],
    categories := [{ id := 1, name := "frock", description := none, productCount := 2 },
                   { id := 2, name := "net", description := none, productCount := 5 }],
    cartItems := [], orders := [], orderItems := [],
    nextProductId := 2, nextCartItemId := 1, nextOrderId := 1, nextOrderItemId := 1 }

/-- Patch that only changes the price. -/
def pricePatch : ProductPatch :=
  { name := none, description := none, price := some 999, imageUrl := none,
    mediaFiles := none, category := none, stock := none,
    isFeatured := none, isActive := none, sku := none }

/-- Patch whose category is the one the product already has. -/
def patchToFrock : ProductPatch :=
  { name := none, description := none, price := none, imageUrl := none,
    mediaFiles := none, category := some "frock", stock := none,
    isFeatured := none, isActive := none, sku := none }

/-- Witness for the amended C7 at the concrete states: category move
frock to net adjusts the counts (2 to 1 and 5 to 6), and a price-only
update or a same-category update leaves the counts alone. -/
theorem C7_witness :
    (reportedCount (PgStorage.updateProduct 1 patchToNet pgStateC7w).2.categories "frock" =
        (reportedCount pgStateC7w.categories "frock").map (fun n => n - 1) ∧
      reportedCount (PgStorage.updateProduct 1 patchToNet pgStateC7w).2.categories "net" =
        (reportedCount pgStateC7w.categories "net").map (fun n => n + 1)) ∧
    (reportedCount (MemStorage.updateProduct 1 patchToNet memStateC7w).2.categories "frock" =
        some (max 0 (2 - 1)) ∧
      reportedCount (MemStorage.updateProduct 1 patchToNet memStateC7w).2.categories "net" =
        some (5 + 1)) ∧
    ((MemStorage.updateProduct 1 pricePatch memStateC7w).2.categories =
        memStateC7w.categories ∧
      (PgStorage.updateProduct 1 pricePatch pgStateC7w).2.categories =
        pgStateC7w.categories) ∧
    ((MemStorage.updateProduct 1 patchToFrock memStateC7w).2.categories =
        memStateC7w.categories ∧
      (PgStorage.updateProduct 1 patchToFrock pgStateC7w).2.categories =
        pgStateC7w.categories) :=
  ⟨C7_category_change_count_maintenance.1 pgStateC7w 1 patchToNet frockProduct "net"
      (by decide) (by decide) (by decide) (by decide),
    C7_category_change_count_maintenance.2.1 memStateC7w 1 patchToNet frockProduct "net"
      { id := 1, name := "frock", description := none, productCount := 2 }
      { id := 2, name := "net", description := none, productCount := 5 }
      (by decide) (by decide) (by decide) (by decide) (by decide) (by decide) (by decide),
    C7_category_change_count_maintenance.2.2.1 memStateC7w pgStateC7w 1 1 pricePatch
      (by decide),
    C7_category_change_count_maintenance.2.2.2 memStateC7w pgStateC7w 1 1 patchToFrock
      frockProduct frockProduct (by decide) (by decide) (by decide) (by decide)⟩

/-- Over a list with pairwise distinct keys (the Map invariant), the
first entry found by the key of a member is that member itself. -/
theorem find?_key_eq_of_nodup {α : Type} (key : α → Nat) (l : List α) (a : α)
    (hnd : (l.map key).Nodup) (ha : a ∈ l) :
    l.find? (fun x => key x == key a) = some a := by
  cases hf : l.find? (fun x => key x == key a) with
  | none =>
    have := List.find?_eq_none.mp hf a ha
    simp at this
  | some y =>
    have hy : y ∈ l := List.mem_of_find?_eq_some hf
    have hk : key y = key a := by simpa using List.find?_some hf
    rw [List.inj_on_of_nodup_map hnd hy ha hk]

/-- countP only depends on the pointwise values of the predicate. -/
theorem countP_congr_mem {α : Type} (l : List α) (p q : α → Bool)
    (h : ∀ a ∈ l, p a = q a) : l.countP p = l.countP q := by
  induction l with
  | nil => rfl
  | cons a t ih =>
    simp [List.countP_cons, h a (by simp), ih (fun x hx => h x (by simp [hx]))]

/-- Cart state for the C3 counterexample: a single row for cart c and
product 1 at quantity 1. -/
def memStateC3 : MemState :=
  { products := [frockProduct], categories := [],
    cartItems := [{ id := 1, cartId := "c", productId := 1, quantity := 1 }],
    currentProductId := 2, currentCategoryId := 1, currentCartItemId := 2 }

/-- C3 counterexample: the cart holds product 1 at quantity 1; adding
the same product with quantity -1 does not leave a single merged row
of quantity 1 + (-1) = 0; MemStorage.addToCart (delegating to
updateCartItem with the non-positive sum) deletes the row, so no row
for the pair survives at all. -/
theorem C3_counterexample :
    MemStorage.getCartItem "c" 1 memStateC3 =
      some { id := 1, cartId := "c", productId := 1, quantity := 1 } ∧
    (¬ ∃ it ∈ (MemStorage.addToCart
        { cartId := "c", productId := 1, quantity := -1 } memStateC3).2.cartItems,
      it.cartId = "c" ∧ it.productId = 1) := by
  decide

/-- MemStorage.addToCart on a product already in the cart, when the
merged quantity stays positive: the single existing row is updated to
the sum of both quantities, and the (cart, product) pairs of the cart
table are unchanged (no second row). -/
theorem mem_addToCart_merges (st : MemState) (ci : InsertCartItem) (ex : CartItem)
    (hnd : (st.cartItems.map (fun it : CartItem => it.id)).Nodup)
    (hex : MemStorage.getCartItem ci.cartId ci.productId st = some ex)
    (hsum : 1 ≤ ex.quantity + ci.quantity) :
    (MemStorage.addToCart ci st).1 =
      some { ex with quantity := ex.quantity + ci.quantity } ∧
    (MemStorage.addToCart ci st).2.cartItems =
      st.cartItems.map (fun it =>
        if it.id == ex.id then { ex with quantity := ex.quantity + ci.quantity } else it) ∧
    (MemStorage.addToCart ci st).2.cartItems.map cartPair =
      st.cartItems.map cartPair := by
  have hex0 : st.cartItems.find?
      (fun it => it.cartId == ci.cartId && it.productId == ci.productId) = some ex := hex
  have hmem : ex ∈ st.cartItems := List.mem_of_find?_eq_some hex0
  have hid : st.cartItems.find? (fun x : CartItem => x.id == ex.id) = some ex :=
    find?_key_eq_of_nodup (fun it : CartItem => it.id) st.cartItems ex hnd hmem
  have hnle : ¬ (ex.quantity + ci.quantity ≤ 0) := by omega
  have hany : st.cartItems.any (fun x : CartItem => x.id == ex.id) = true :=
    any_of_find?_eq_some hid
  have haddEq : MemStorage.addToCart ci st =
      (some { ex with quantity := ex.quantity + ci.quantity },
        { st with cartItems := jsMapSet (fun it : CartItem => it.id) st.cartItems ex.id { ex with quantity := ex.quantity + ci.quantity } }) := by
    unfold MemStorage.addToCart
    rw [hex]
    dsimp only
    unfold MemStorage.updateCartItem jsMapGet
    dsimp only
    rw [hid]
    dsimp only
    rw [if_neg hnle]
  have hmapEq : (MemStorage.addToCart ci st).2.cartItems =
      st.cartItems.map (fun it =>
        if it.id == ex.id then { ex with quantity := ex.quantity + ci.quantity } else it) := by
    rw [haddEq]
    exact jsMapSet_eq_map _ _ _ _ hany
  refine ⟨by rw [haddEq], hmapEq, ?_⟩
  rw [hmapEq, List.map_map]
  apply List.map_congr_left
  intro a ha
  by_cases h : (a.id == ex.id) = true
  · have haex : a = ex := List.inj_on_of_nodup_map hnd ha hmem (by simpa using h)
    simp [Function.comp, h, cartPair, haex]
  · simp [Function.comp, h]

/-- PgStorage.addToCart on a product already in the cart, when the
added quantity is at least 1 (so the JavaScript quantity-or-1 fallback
is the quantity itself) and the merged quantity stays positive: the
single existing row is updated to the sum of both quantities, and the
(cart, product) pairs of the cart table are unchanged (no second
row). -/
theorem pg_addToCart_merges (st : PgState) (ci : InsertCartItem) (ex : CartItem)
    (hnd : (st.cartItems.map (fun it : CartItem => it.id)).Nodup)
    (hex : PgStorage.getCartItem ci.cartId ci.productId st = some ex)
    (hq : 1 ≤ ci.quantity)
    (hsum : 1 ≤ ex.quantity + ci.quantity) :
    (PgStorage.addToCart ci st).1 =
      some { ex with quantity := ex.quantity + ci.quantity } ∧
    (PgStorage.addToCart ci st).2.cartItems =
      st.cartItems.map (fun it =>
        if it.id == ex.id then { it with quantity := ex.quantity + ci.quantity } else it) ∧
    (PgStorage.addToCart ci st).2.cartItems.map cartPair =
      st.cartItems.map cartPair := by
  have hex0 : st.cartItems.find?
      (fun it => it.cartId == ci.cartId && it.productId == ci.productId) = some ex := hex
  have hmem : ex ∈ st.cartItems := List.mem_of_find?_eq_some hex0
  have hid : st.cartItems.find? (fun x : CartItem => x.id == ex.id) = some ex :=
    find?_key_eq_of_nodup (fun it : CartItem => it.id) st.cartItems ex hnd hmem
  have hq0 : (ci.quantity == 0) = false := by
    have hne : ci.quantity ≠ 0 := by omega
    simpa using hne
  have hnle : ¬ (ex.quantity + ci.quantity ≤ 0) := by omega
  have haddEq : PgStorage.addToCart ci st =
      (some { ex with quantity := ex.quantity + ci.quantity },
        { st with cartItems := st.cartItems.map (fun it => if it.id == ex.id then { it with quantity := ex.quantity + ci.quantity } else it) }) := by
    unfold PgStorage.addToCart
    rw [hex]
    dsimp only
    simp only [hq0, Bool.false_eq_true, if_false]
    unfold PgStorage.updateCartItem
    rw [if_neg hnle, hid]
  have hmapEq : (PgStorage.addToCart ci st).2.cartItems =
      st.cartItems.map (fun it =>
        if it.id == ex.id then { it with quantity := ex.quantity + ci.quantity } else it) := by
    rw [haddEq]
  refine ⟨by rw [haddEq], hmapEq, ?_⟩
  rw [hmapEq, List.map_map]
  apply List.map_congr_left
  intro a ha
  by_cases h : (a.id == ex.id) = true
  · simp [Function.comp, h, cartPair]
  · simp [Function.comp, h]

/-- MemStorage.addToCart on a product already in the cart never
increases the number of rows for that (cart, product) pair, whatever
the quantities (the merge either rewrites the row in place or deletes
it). -/
theorem mem_addToCart_no_new_pair (st : MemState) (ci : InsertCartItem) (ex : CartItem)
    (hnd : (st.cartItems.map (fun it : CartItem => it.id)).Nodup)
    (hex : MemStorage.getCartItem ci.cartId ci.productId st = some ex) :
    (MemStorage.addToCart ci st).2.cartItems.countP
        (fun it => it.cartId == ci.cartId && it.productId == ci.productId) ≤
      st.cartItems.countP
        (fun it => it.cartId == ci.cartId && it.productId == ci.productId) := by
  have hex0 : st.cartItems.find?
      (fun it => it.cartId == ci.cartId && it.productId == ci.productId) = some ex := hex
  have hmem : ex ∈ st.cartItems := List.mem_of_find?_eq_some hex0
  have hid : st.cartItems.find? (fun x : CartItem => x.id == ex.id) = some ex :=
    find?_key_eq_of_nodup (fun it : CartItem => it.id) st.cartItems ex hnd hmem
  unfold MemStorage.addToCart
  rw [hex]
  dsimp only
  unfold MemStorage.updateCartItem jsMapGet
  dsimp only
  rw [hid]
  dsimp only
  by_cases hle : ex.quantity + ci.quantity ≤ 0
  · rw [if_pos hle]
    dsimp only
    unfold jsMapDelete
    exact (List.filter_sublist _).countP_le _
  · rw [if_neg hle]
    dsimp only
    rw [jsMapSet_eq_map _ _ _ _ (any_of_find?_eq_some hid)]
    rw [List.countP_map]
    exact le_of_eq (countP_congr_mem st.cartItems _ _ (fun a ha => by
      by_cases h : (a.id == ex.id) = true
      · have haex : a = ex := List.inj_on_of_nodup_map hnd ha hmem (by simpa using h)
        simp [Function.comp, h, haex]
      · simp [Function.comp, h]))

/-- PgStorage.addToCart on a product already in the cart never
increases the number of rows for that (cart, product) pair, whatever
the quantities (the UPDATE only rewrites quantities in place, the
delete path removes rows). -/
theorem pg_addToCart_no_new_pair (st : PgState) (ci : InsertCartItem) (ex : CartItem)
    (hex : PgStorage.getCartItem ci.cartId ci.productId st = some ex) :
    (PgStorage.addToCart ci st).2.cartItems.countP
        (fun it => it.cartId == ci.cartId && it.productId == ci.productId) ≤
      st.cartItems.countP
        (fun it => it.cartId == ci.cartId && it.productId == ci.productId) := by
  unfold PgStorage.addToCart
  rw [hex]
  dsimp only
  unfold PgStorage.updateCartItem
  by_cases hle : ex.quantity + (if (ci.quantity == 0) = true then 1 else ci.quantity) ≤ 0
  · rw [if_pos hle]
    unfold PgStorage.removeFromCart
    dsimp only
    exact (List.filter_sublist _).countP_le _
  · rw [if_neg hle]
    cases hid2 : st.cartItems.find? (fun x : CartItem => x.id == ex.id) with
    | none => dsimp only; exact le_refl _
    | some y =>
      dsimp only
      rw [List.countP_map]
      exact le_of_eq (countP_congr_mem st.cartItems _ _ (fun a ha => by
        by_cases h : (a.id == ex.id) = true
        · simp [Function.comp, h]
        · simp [Function.comp, h]))

/-- C3 as amended: adding a product already present in the cart merges
into the single existing row and never creates a second row for that
(cartId, productId) pair, in both implementations. The merged quantity
is the sum of both quantities whenever that sum is positive and (for
PgStorage) the added quantity is at least 1, PgStorage treating an
added quantity of 0 as 1; a merge whose total is 0 or below deletes
the row instead. In every merge case the multiset of (cart, product)
pairs never gains a row for the pair. States carry the Map invariant
of pairwise distinct row ids. -/
theorem C3_add_to_cart_merges_no_second_row :
    (∀ (st : MemState) (ci : InsertCartItem) (ex : CartItem),
      (st.cartItems.map (fun it : CartItem => it.id)).Nodup →
      MemStorage.getCartItem ci.cartId ci.productId st = some ex →
      1 ≤ ex.quantity + ci.quantity →
      (MemStorage.addToCart ci st).1 =
        some { ex with quantity := ex.quantity + ci.quantity } ∧
      (MemStorage.addToCart ci st).2.cartItems =
        st.cartItems.map (fun it =>
          if it.id == ex.id then { ex with quantity := ex.quantity + ci.quantity } else it) ∧
      (MemStorage.addToCart ci st).2.cartItems.map cartPair =
        st.cartItems.map cartPair) ∧
    (∀ (st : PgState) (ci : InsertCartItem) (ex : CartItem),
      (st.cartItems.map (fun it : CartItem => it.id)).Nodup →
      PgStorage.getCartItem ci.cartId ci.productId st = some ex →
      1 ≤ ci.quantity → 1 ≤ ex.quantity + ci.quantity →
      (PgStorage.addToCart ci st).1 =
        some { ex with quantity := ex.quantity + ci.quantity } ∧
      (PgStorage.addToCart ci st).2.cartItems =
        st.cartItems.map (fun it =>
          if it.id == ex.id then { it with quantity := ex.quantity + ci.quantity } else it) ∧
      (PgStorage.addToCart ci st).2.cartItems.map cartPair =
        st.cartItems.map cartPair) ∧
    (∀ (st : MemState) (ci : InsertCartItem) (ex : CartItem),
      (st.cartItems.map (fun it : CartItem => it.id)).Nodup →
      MemStorage.getCartItem ci.cartId ci.productId st = some ex →
      (MemStorage.addToCart ci st).2.cartItems.countP
          (fun it => it.cartId == ci.cartId && it.productId == ci.productId) ≤
        st.cartItems.countP
          (fun it => it.cartId == ci.cartId && it.productId == ci.productId)) ∧
    (∀ (st : PgState) (ci : InsertCartItem) (ex : CartItem),
      PgStorage.getCartItem ci.cartId ci.productId st = some ex →
      (PgStorage.addToCart ci st).2.cartItems.countP
          (fun it => it.cartId == ci.cartId && it.productId == ci.productId) ≤
        st.cartItems.countP
          (fun it => it.cartId == ci.cartId && it.productId == ci.productId)) := by
  refine ⟨?_, ?_, ?_, ?_⟩
  · intro st ci ex h1 h2 h3
    exact mem_addToCart_merges st ci ex h1 h2 h3
  · intro st ci ex h1 h2 h3 h4
    exact pg_addToCart_merges st ci ex h1 h2 h3 h4
  · intro st ci ex h1 h2
    exact mem_addToCart_no_new_pair st ci ex h1 h2
  · intro st ci ex h2
    exact pg_addToCart_no_new_pair st ci ex h2

/-- Cart state for the C3 witness on the MemStorage side: one row for
cart c and product 1 at quantity 2. -/
def memStateC3w : MemState :=
  { products := [frockProduct], categories := [],
    cartItems := [{ id := 1, cartId := "c", productId := 1, quantity := 2 }],
    currentProductId := 2, currentCategoryId := 1, currentCartItemId := 2 }

/-- Cart state for the C3 witness on the PgStorage side. -/
def pgStateC3w : PgState :=
  { products := [frockProduct], categories := [],
    cartItems := [{ id := 1, cartId := "c", productId := 1, quantity := 2 }],
    orders := [], orderItems := [],
    nextProductId := 2, nextCartItemId := 2, nextOrderId := 1, nextOrderItemId := 1 }

/-- The second add of the C3 witness: same cart and product, quantity 3. -/
def addC3 : InsertCartItem := { cartId := "c", productId := 1, quantity := 3 }

/-- Witness for the amended C3: adding product 1 again with quantity 3
onto the existing quantity-2 row yields the single row at quantity
2 + 3 in both implementations, with the pair multiset unchanged and
the pair count not increased. -/
theorem C3_witness :
    ((MemStorage.addToCart addC3 memStateC3w).1 =
        some { id := 1, cartId := "c", productId := 1, quantity := 2 + 3 } ∧
      (MemStorage.addToCart addC3 memStateC3w).2.cartItems =
        memStateC3w.cartItems.map (fun it =>
          if it.id == 1 then { id := 1, cartId := "c", productId := 1, quantity := 2 + 3 }
          else it) ∧
      (MemStorage.addToCart addC3 memStateC3w).2.cartItems.map cartPair =
        memStateC3w.cartItems.map cartPair) ∧
    ((PgStorage.addToCart addC3 pgStateC3w).1 =
        some { id := 1, cartId := "c", productId := 1, quantity := 2 + 3 } ∧
      (PgStorage.addToCart addC3 pgStateC3w).2.cartItems =
        pgStateC3w.cartItems.map (fun it =>
          if it.id == 1 then { it with quantity := 2 + 3 } else it) ∧
      (PgStorage.addToCart addC3 pgStateC3w).2.cartItems.map cartPair =
        pgStateC3w.cartItems.map cartPair) ∧
    ((MemStorage.addToCart addC3 memStateC3w).2.cartItems.countP
        (fun it => it.cartId == "c" && it.productId == 1) ≤
      memStateC3w.cartItems.countP
        (fun it => it.cartId == "c" && it.productId == 1)) ∧
    ((PgStorage.addToCart addC3 pgStateC3w).2.cartItems.countP
        (fun it => it.cartId == "c" && it.productId == 1) ≤
      pgStateC3w.cartItems.countP
        (fun it => it.cartId == "c" && it.productId == 1)) :=
  ⟨C3_add_to_cart_merges_no_second_row.1 memStateC3w addC3
      { id := 1, cartId := "c", productId := 1, quantity := 2 }
      (by decide) (by decide) (by decide),
    C3_add_to_cart_merges_no_second_row.2.1 pgStateC3w addC3
      { id := 1, cartId := "c", productId := 1, quantity := 2 }
      (by decide) (by decide) (by decide) (by decide),
    C3_add_to_cart_merges_no_second_row.2.2.1 memStateC3w addC3
      { id := 1, cartId := "c", productId := 1, quantity := 2 }
      (by decide) (by decide),
    C3_add_to_cart_merges_no_second_row.2.2.2 pgStateC3w addC3
      { id := 1, cartId := "c", productId := 1, quantity := 2 }
      (by decide)⟩

/-- C2: a checkout request whose payload fails validation, and a
checkout request whose cart is empty, are rejected before any write:
the returned state is exactly the input state (no order row, no order
item rows, cart untouched) and the response is never a placed
order. -/
theorem C2_checkout_rejected_before_writes :
    (∀ (sess : Session) (emailOk : String → Bool) (body : RawCheckout) (st : PgState),
      checkoutParse emailOk body = none →
      (postApiOrders sess emailOk body st).2 = st ∧
      ∀ o : Order, (postApiOrders sess emailOk body st).1 ≠ OrdersResult.placed o) ∧
    (∀ (sess : Session) (emailOk : String → Bool) (body : RawCheckout) (st : PgState)
        (cid : String),
      sess.cartId = some cid →
      PgStorage.getCartItems cid st = [] →
      (postApiOrders sess emailOk body st).2 = st ∧
      ∀ o : Order, (postApiOrders sess emailOk body st).1 ≠ OrdersResult.placed o) := by
  constructor
  · intro sess emailOk body st hparse
    unfold postApiOrders
    cases huid : sess.userId with
    | none => exact ⟨rfl, fun o => by simp⟩
    | some uid =>
      dsimp only
      by_cases hauth : (!sess.isAuthenticated || uid == 0) = true
      · rw [if_pos hauth]
        exact ⟨rfl, fun o => by simp⟩
      · rw [if_neg hauth, hparse]
        exact ⟨rfl, fun o => by simp⟩
  · intro sess emailOk body st cid hcid hempty
    unfold postApiOrders
    cases huid : sess.userId with
    | none => exact ⟨rfl, fun o => by simp⟩
    | some uid =>
      dsimp only
      by_cases hauth : (!sess.isAuthenticated || uid == 0) = true
      · rw [if_pos hauth]
        exact ⟨rfl, fun o => by simp⟩
      · rw [if_neg hauth]
        cases hcp : checkoutParse emailOk body with
        | none => exact ⟨rfl, fun o => by simp⟩
        | some cd =>
          rw [hcid]
          dsimp only
          by_cases hce : cid.isEmpty = true
          · rw [if_pos hce]
            exact ⟨rfl, fun o => by simp⟩
          · rw [if_neg hce]
            rw [hempty]
            simp

/-- Reading a cart back right after clearCart on the same cart id
gives the empty list. -/
theorem getCartItems_cleared (st2 : PgState) (cid : String) :
    PgStorage.getCartItems cid ((PgStorage.clearCart cid st2).2) = [] := by
  unfold PgStorage.getCartItems PgStorage.clearCart
  dsimp only
  rw [filter_not_filter_self]
  rfl

/-- The write sequence of the order route (insert order, insert one
order item per cart row, clear the cart), for any insert payload:
exactly one order row is appended, one order item per cart row is
appended copying product id, quantity and product price, every cart
row of the cart id is deleted, and reading the cart back afterwards
gives the empty list. -/
theorem order_flow_spec (io : InsertOrder) (cid : String) (st : PgState) :
    (PgStorage.createOrder io st).1.totalAmount = io.totalAmount ∧
    ((PgStorage.clearCart cid (insertOrderItems (PgStorage.createOrder io st).1.id
        (PgStorage.getCartItems cid st) (PgStorage.createOrder io st).2)).2).orders =
      st.orders ++ [(PgStorage.createOrder io st).1] ∧
    ((PgStorage.clearCart cid (insertOrderItems (PgStorage.createOrder io st).1.id
        (PgStorage.getCartItems cid st) (PgStorage.createOrder io st).2)).2).orderItems.map
          orderItemKey =
      st.orderItems.map orderItemKey ++
        (PgStorage.getCartItems cid st).map (fun it =>
          ((PgStorage.createOrder io st).1.id, it.product.id, it.quantity,
            it.product.price)) ∧
    ((PgStorage.clearCart cid (insertOrderItems (PgStorage.createOrder io st).1.id
        (PgStorage.getCartItems cid st) (PgStorage.createOrder io st).2)).2).cartItems =
      st.cartItems.filter (fun it => !(it.cartId == cid)) ∧
    PgStorage.getCartItems cid
      ((PgStorage.clearCart cid (insertOrderItems (PgStorage.createOrder io st).1.id
        (PgStorage.getCartItems cid st) (PgStorage.createOrder io st).2)).2) = [] := by
  obtain ⟨ho, hc, hp, hcat, hoi⟩ := insertOrderItems_spec
    (PgStorage.createOrder io st).1.id (PgStorage.getCartItems cid st)
    (PgStorage.createOrder io st).2
  refine ⟨rfl, ?_, ?_, ?_, ?_⟩
  · simp only [PgStorage.clearCart]
    rw [ho]
    simp [PgStorage.createOrder]
  · simp only [PgStorage.clearCart]
    exact hoi
  · simp only [PgStorage.clearCart]
    rw [hc]
    simp [PgStorage.createOrder]
  · exact getCartItems_cleared _ cid

/-- C1: for an authenticated session with a non-empty cart and a
payload that validates, POST /api/orders computes the total as the
sum over the cart rows of product price times quantity, appends
exactly one order row carrying that total, appends exactly one order
item per cart row copying product id, quantity and product price,
deletes every cart row of the cart id, and afterwards the cart reads
back empty. -/
theorem C1_order_creation_and_cart_clear (sess : Session) (emailOk : String → Bool)
    (body : RawCheckout) (st : PgState) (uid : Nat) (cd : CheckoutInfo) (cid : String)
    (huid : sess.userId = some uid)
    (hauth : sess.isAuthenticated = true)
    (huid0 : uid ≠ 0)
    (hcd : checkoutParse emailOk body = some cd)
    (hcid : sess.cartId = some cid)
    (hcide : cid.isEmpty = false)
    (hne : PgStorage.getCartItems cid st ≠ []) :
    ∃ order : Order,
      (postApiOrders sess emailOk body st).1 = OrdersResult.placed order ∧
      order.totalAmount =
        ((PgStorage.getCartItems cid st).map (fun it => it.product.price * it.quantity)).sum ∧
      (postApiOrders sess emailOk body st).2.orders = st.orders ++ [order] ∧
      (postApiOrders sess emailOk body st).2.orderItems.map orderItemKey =
        st.orderItems.map orderItemKey ++
          (PgStorage.getCartItems cid st).map (fun it =>
            (order.id, it.product.id, it.quantity, it.product.price)) ∧
      (postApiOrders sess emailOk body st).2.cartItems =
        st.cartItems.filter (fun it => !(it.cartId == cid)) ∧
      PgStorage.getCartItems cid (postApiOrders sess emailOk body st).2 = [] := by
  have hauthc : ¬ ((!sess.isAuthenticated || uid == 0) = true) := by
    simp [hauth, huid0]
  have hlen : ¬ (((PgStorage.getCartItems cid st).length == 0) = true) := by
    simpa [List.length_eq_zero] using hne
  have hcide2 : ¬ (cid.isEmpty = true) := by simp [hcide]
  have hres : postApiOrders sess emailOk body st =
      (OrdersResult.placed (PgStorage.createOrder
          { userId := uid, totalAmount := totalAmountOf (PgStorage.getCartItems cid st),
            status := none, paymentMethod := some cd.paymentMethod, paymentStatus := none,
            shippingAddress := some cd.address, shippingCity := some cd.city,
            shippingState := some cd.state, shippingZipCode := some cd.zipCode,
            shippingCountry := some (jsOrStr (some cd.country) "India"),
            trackingNumber := none, notes := none } st).1,
        (PgStorage.clearCart cid (insertOrderItems (PgStorage.createOrder
          { userId := uid, totalAmount := totalAmountOf (PgStorage.getCartItems cid st),
            status := none, paymentMethod := some cd.paymentMethod, paymentStatus := none,
            shippingAddress := some cd.address, shippingCity := some cd.city,
            shippingState := some cd.state, shippingZipCode := some cd.zipCode,
            shippingCountry := some (jsOrStr (some cd.country) "India"),
            trackingNumber := none, notes := none } st).1.id
          (PgStorage.getCartItems cid st) (PgStorage.createOrder
          { userId := uid, totalAmount := totalAmountOf (PgStorage.getCartItems cid st),
            status := none, paymentMethod := some cd.paymentMethod, paymentStatus := none,
            shippingAddress := some cd.address, shippingCity := some cd.city,
            shippingState := some cd.state, shippingZipCode := some cd.zipCode,
            shippingCountry := some (jsOrStr (some cd.country) "India"),
            trackingNumber := none, notes := none } st).2)).2) := by
    unfold postApiOrders
    rw [huid]
    dsimp only
    rw [if_neg hauthc, hcd]
    dsimp only
    rw [hcid]
    dsimp only
    rw [if_neg hcide2]
    rw [if_neg hlen]
  obtain ⟨ht, ho, hoi, hc, hg⟩ := order_flow_spec
    { userId := uid, totalAmount := totalAmountOf (PgStorage.getCartItems cid st),
      status := none, paymentMethod := some cd.paymentMethod, paymentStatus := none,
      shippingAddress := some cd.address, shippingCity := some cd.city,
      shippingState := some cd.state, shippingZipCode := some cd.zipCode,
      shippingCountry := some (jsOrStr (some cd.country) "India"),
      trackingNumber := none, notes := none } cid st
  rw [hres]
  refine ⟨_, rfl, ?_, ho, hoi, hc, hg⟩
  rw [ht]
  show totalAmountOf (PgStorage.getCartItems cid st) = _
  unfold totalAmountOf
  rw [foldl_add_eq_sum]
  simp

/-- Product A of the checkout scenario: unit price 499. -/
def productA : Product :=
  { id := 1, name := "Silk Frock Material A", description := "a", price := 499,
    imageUrl := "u", mediaFiles := [], category := "frock", stock := 10,
    isFeatured := false, isActive := true, sku := "FB-FR-010" }

/-- Product B of the checkout scenario: unit price 799. -/
def productB : Product :=
  { id := 2, name := "Designer Net Fabric B", description := "b", price := 799,
    imageUrl := "u", mediaFiles := [], category := "net", stock := 10,
    isFeatured := false, isActive := true, sku := "FB-NT-011" }

/-- Database state of the checkout scenario: cart cart1 holds product
A at quantity 2 and product B at quantity 1. -/
def ordersStateW : PgState :=
  { products := [productA, productB],
    categories := [],
    cartItems := [{ id := 1, cartId := "cart1", productId := 1, quantity := 2 },
                  { id := 2, cartId := "cart1", productId := 2, quantity := 1 }],
    orders := [], orderItems := [],
    nextProductId := 3, nextCartItemId := 3, nextOrderId := 1, nextOrderItemId := 1 }

/-- Same scenario with an empty cart. -/
def emptyCartStateW : PgState :=
  { products := [productA, productB],
    categories := [], cartItems := [], orders := [], orderItems := [],
    nextProductId := 3, nextCartItemId := 1, nextOrderId := 1, nextOrderItemId := 1 }

/-- Authenticated session of the checkout scenario. -/
def sessionW : Session :=
  { isAuthenticated := true, userId := some 7, cartId := some "cart1" }

/-- A checkout payload that validates. -/
def validBody : RawCheckout :=
  { firstName := some "Zishan", lastName := some "Deshmukh", email := some "z@example.com",
    phone := some "9999999999", address := some "12 Cotton Street", city := some "Nagpur",
    state := some "MH", zipCode := some "440001", country := none,
    paymentMethod := some "qr" }

/-- The parse result of validBody (country defaulted to India). -/
def validCheckout : CheckoutInfo :=
  { firstName := "Zishan", lastName := "Deshmukh", email := "z@example.com",
    phone := "9999999999", address := "12 Cotton Street", city := "Nagpur",
    state := "MH", zipCode := "440001", country := "India", paymentMethod := "qr" }

/-- A checkout payload that fails validation: the first name is
missing. -/
def badBody : RawCheckout :=
  { firstName := none, lastName := some "Deshmukh", email := some "z@example.com",
    phone := some "9999999999", address := some "12 Cotton Street", city := some "Nagpur",
    state := some "MH", zipCode := some "440001", country := none,
    paymentMethod := some "qr" }

/-- Witness for C1 at the spec scenario: cart with product A (499,
quantity 2) and product B (799, quantity 1); the placed order totals
499 times 2 plus 799 times 1 = 1797, one order and one order item per
cart row are appended with frozen prices 499 and 799, and the cart is
empty afterwards. -/
theorem C1_witness :
    (sessionW.userId = some 7 ∧ sessionW.isAuthenticated = true ∧ (7 : Nat) ≠ 0 ∧
      checkoutParse (fun _ => true) validBody = some validCheckout ∧
      sessionW.cartId = some "cart1" ∧ String.isEmpty "cart1" = false ∧
      PgStorage.getCartItems "cart1" ordersStateW ≠ []) ∧
    (∃ order : Order,
      (postApiOrders sessionW (fun _ => true) validBody ordersStateW).1 =
        OrdersResult.placed order ∧
      order.totalAmount = 1797 ∧
      (postApiOrders sessionW (fun _ => true) validBody ordersStateW).2.orders =
        ordersStateW.orders ++ [order] ∧
      (postApiOrders sessionW (fun _ => true) validBody ordersStateW).2.orderItems.map
          orderItemKey =
        ordersStateW.orderItems.map orderItemKey ++
          (PgStorage.getCartItems "cart1" ordersStateW).map (fun it =>
            (order.id, it.product.id, it.quantity, it.product.price)) ∧
      (postApiOrders sessionW (fun _ => true) validBody ordersStateW).2.cartItems =
        ordersStateW.cartItems.filter (fun it => !(it.cartId == "cart1")) ∧
      PgStorage.getCartItems "cart1"
        (postApiOrders sessionW (fun _ => true) validBody ordersStateW).2 = []) := by
  constructor
  · exact ⟨rfl, rfl, by decide, by decide, rfl, by decide, by decide⟩
  · obtain ⟨order, h1, h2, h3, h4, h5, h6⟩ :=
      C1_order_creation_and_cart_clear sessionW (fun _ => true) validBody ordersStateW
        7 validCheckout "cart1" rfl rfl (by decide) (by decide) rfl (by decide) (by decide)
    exact ⟨order, h1, by rw [h2]; decide, h3, h4, h5, h6⟩

/-- Witness for C2: a payload missing its first name is rejected with
the state untouched, and a valid payload on an empty cart is rejected
with the state untouched; neither ever returns a placed order. -/
theorem C2_witness :
    (checkoutParse (fun _ => true) badBody = none ∧
      PgStorage.getCartItems "cart1" emptyCartStateW = []) ∧
    ((postApiOrders sessionW (fun _ => true) badBody ordersStateW).2 = ordersStateW ∧
      ∀ o : Order, (postApiOrders sessionW (fun _ => true) badBody ordersStateW).1 ≠
        OrdersResult.placed o) ∧
    ((postApiOrders sessionW (fun _ => true) validBody emptyCartStateW).2 =
        emptyCartStateW ∧
      ∀ o : Order, (postApiOrders sessionW (fun _ => true) validBody emptyCartStateW).1 ≠
        OrdersResult.placed o) :=
  ⟨⟨by decide, by decide⟩,
    C2_checkout_rejected_before_writes.1 sessionW (fun _ => true) badBody ordersStateW
      (by decide),
    C2_checkout_rejected_before_writes.2 sessionW (fun _ => true) validBody emptyCartStateW
      "cart1" rfl (by decide)⟩
